import Mathlib

/-!
Verification of the fetch-validate-extract-persist pipeline of
`web_scraper.py` (with model configuration in `load_models.py`).

The Python program is embedded shallowly:

* pure data (the pydantic models `Product` and `Results`) become Lean
  structures;
* the tool function `fetch_html_text` becomes a total Lean function over an
  explicit model of the HTTP outcome (success status/body or transport
  failure); the opaque HTML-to-visible-text step (`BeautifulSoup.get_text`)
  is a function parameter, and the newline-collapsing regex substitution is
  implemented directly; file-write side effects are recorded in an explicit
  effect trace (the source performs none);
* the result validator `validate_scraping_result` becomes a function on an
  explicit candidate type that keeps the `isinstance` check visible;
* `main` becomes a function from an environment (agent-run outcome, current
  local time, CSV-write outcome) to an explicit result recording which file
  was written, which error lines were logged, and whether an exception
  escaped the `try`/`except UnexpectedModelBehavior` block;
* the pandas `DataFrame.to_csv(..., index=False)` call becomes a direct CSV
  serializer with the csv-module QUOTE_MINIMAL quoting convention;
* pydantic v2 validation of the `Product` schema (fields declared with
  `Field(...)` and no default are required; `str | None` admits the null
  value) becomes `Product.validateRaw`.
-/

namespace WebScraper

/-- The pydantic model `Product` (web_scraper.py lines 15-19): required text
fields `brand_name` and `product_name`, and fields `price` and `rating_count`
whose values may be text or `None`. -/
structure Product where
  brand_name : String
  product_name : String
  price : Option String
  rating_count : Option String
deriving Repr, DecidableEq

/-- The pydantic model `Results` (web_scraper.py lines 21-22): a list of
scraped products. -/
structure Results where
  dataset : List Product
deriving Repr, DecidableEq

/-! ## Page Fetcher: `fetch_html_text` (web_scraper.py lines 43-71) -/

/-- Outcome of the HTTP GET performed by `httpx.Client.get` inside
`fetch_html_text`: either a response with a status code and an HTML body, or
a transport-level failure carrying its error detail (the text that Python
would interpolate for the caught exception `e`). -/
inductive HttpOutcome where
  | response (status : Nat) (body : String)
  | transportError (detail : String)
deriving Repr, DecidableEq

/-- A newline or carriage-return character, the character class of the regex
`[\n\r]+` on web_scraper.py line 64. -/
def isBreak (c : Char) : Bool :=
  c == '\n' || c == '\r'

/-- Dropping a prefix never lengthens a list (termination measure for the
run-collapsing recursion below). -/
theorem dropWhile_length_le (p : Char → Bool) :
    ∀ l : List Char, (l.dropWhile p).length ≤ l.length := by
  intro l
  induction l with
  | nil => simp [List.dropWhile]
  | cons c cs ih =>
    rw [List.dropWhile]
    by_cases h : p c
    · simp only [h]
      exact Nat.le_succ_of_le ih
    · simp [h]

/-- `re.sub(r"[\n\r]+", " ", text)` on a list of characters: each maximal
run of newline/carriage-return characters is replaced by a single space. -/
def collapseBreaks : List Char → List Char
  | [] => []
  | c :: cs =>
    if isBreak c then ' ' :: collapseBreaks (cs.dropWhile isBreak)
    else c :: collapseBreaks cs
termination_by l => l.length
decreasing_by
  · exact Nat.lt_succ_of_le (dropWhile_length_le isBreak cs)
  · exact Nat.lt_succ_self cs.length

/-- The cleaning step `re.sub(r"[\n\r]+", " ", soup.get_text())` applied to
an already-extracted text (web_scraper.py line 64). -/
def cleanText (s : String) : String :=
  String.mk (collapseBreaks s.data)

/-- Result of one call of `fetch_html_text`: the returned string together
with an explicit trace of the local files written during the call, as
`(path, content)` pairs. The function body in web_scraper.py lines 43-71
performs no file write, so the trace produced by the embedding is always
empty; logging calls are not modelled. -/
structure FetchResult where
  text : String
  filesWritten : List (String × String)
deriving Repr, DecidableEq

/-- `fetch_html_text(url)` (web_scraper.py lines 43-71), as a function of
the HTTP outcome.  `getText` models the opaque `BeautifulSoup(...,
"html.parser").get_text()` visible-text extraction.  `raise_for_status`
raises `HTTPStatusError` exactly when the status is not a 2xx success code;
that exception is caught and turned into the fixed error string containing
the URL; any other exception `e` (transport failure) is caught and turned
into `"Error: " ++ e`.  Every branch returns a string: the function never
raises to its caller. -/
def fetch_html_text (getText : String → String) (url : String)
    (outcome : HttpOutcome) : FetchResult :=
  match outcome with
  | .response status body =>
    if 200 ≤ status ∧ status < 300 then
      { text := cleanText (getText body), filesWritten := [] }
    else
      { text := "Error: Unable to fetch content from " ++ url,
        filesWritten := [] }
  | .transportError detail =>
    { text := "Error: " ++ detail, filesWritten := [] }

/-! ## Result Validator: `validate_scraping_result` (web_scraper.py 73-89) -/

/-- A candidate value passed to the result validator: either an actual
instance of `Results`, or a value of some other runtime type (for which the
Python `isinstance(result, Results)` test is false). -/
inductive Candidate where
  | results (r : Results)
  | wrongType
deriving Repr, DecidableEq

/-- `validate_scraping_result` (web_scraper.py lines 73-89): returns the
candidate itself when `isinstance(result, Results) and result.dataset` is
truthy (a non-empty list is truthy in Python), and `None` otherwise. -/
def validate_scraping_result : Candidate → Option Results
  | .results r => if r.dataset.isEmpty then none else some r
  | .wrongType => none

/-! ## Persistence Writer: the CSV serialization in `main`
(web_scraper.py lines 107-111) -/

/-- QUOTE_MINIMAL quoting of one CSV field, the convention of the Python
`csv` module used by `pandas.DataFrame.to_csv`: a field is wrapped in
double quotes, with inner double quotes doubled, exactly when it contains
the delimiter, the quote character, or a line-terminator character. -/
def csvField (s : String) : String :=
  if s.data.any (fun c => c == ',' || c == '"' || c == '\n' || c == '\r') then
    "\"" ++ String.mk (s.data.foldr
      (fun c acc => if c == '"' then '"' :: '"' :: acc else c :: acc) []) ++ "\""
  else s

/-- Rendering of one optional cell: pandas writes a missing value (`None`)
as an empty cell under the default `na_rep` of `to_csv`. -/
def csvCell : Option String → String
  | none => ""
  | some s => csvField s

/-- One CSV data row for a product.  `model_dump` preserves the declaration
order of the fields, and `pd.DataFrame` takes its column order from the
keys of the dumped dicts, so the columns are
`brand_name, product_name, price, rating_count`. -/
def productRow (p : Product) : String :=
  String.intercalate ","
    [csvField p.brand_name, csvField p.product_name,
     csvCell p.price, csvCell p.rating_count]

/-- The header row written by `to_csv`: the column names in declaration
order, with no row-index column because `index=False` is passed. -/
def csvHeader : String :=
  "brand_name,product_name,price,rating_count"

/-- The logical rows of the CSV file produced from a dataset: the header
row followed by one data row per record. -/
def toCsvLines (ps : List Product) : List String :=
  csvHeader :: ps.map productRow

/-- The CSV file contents: each row terminated by a newline. -/
def toCsvFile (ps : List Product) : String :=
  String.join ((toCsvLines ps).map (fun row => row ++ "\n"))

/-! ## Timestamped filename (web_scraper.py lines 109-110) -/

/-- A local wall-clock time, the relevant fields of
`datetime.datetime.now()`. -/
structure LocalTime where
  year : Nat
  month : Nat
  day : Nat
  hour : Nat
  minute : Nat
  second : Nat
deriving Repr, DecidableEq

/-- Zero-padding to two digits, the behaviour of the strftime fields
`%m %d %H %M %S`. -/
def pad2 (n : Nat) : String :=
  if n < 10 then "0" ++ toString n else toString n

/-- Zero-padding to four digits, the behaviour of the strftime field
`%Y`. -/
def pad4 (n : Nat) : String :=
  if n < 10 then "000" ++ toString n
  else if n < 100 then "00" ++ toString n
  else if n < 1000 then "0" ++ toString n
  else toString n

/-- `datetime.datetime.now().strftime("%Y-%m-%d_%H-%M-%S")`
(web_scraper.py line 109). -/
def strftimeTimestamp (t : LocalTime) : String :=
  pad4 t.year ++ "-" ++ pad2 t.month ++ "-" ++ pad2 t.day ++ "_" ++
    pad2 t.hour ++ "-" ++ pad2 t.minute ++ "-" ++ pad2 t.second

/-- The output filename `f"product_listings_{timestamp}.csv"`
(web_scraper.py line 110). -/
def csvFilename (t : LocalTime) : String :=
  "product_listings_" ++ strftimeTimestamp t ++ ".csv"

/-! ## The `main` pipeline (web_scraper.py lines 91-116) -/

/-- An exception reaching `main`: either
`pydantic_ai.exceptions.UnexpectedModelBehavior` (the only class its
`except` clause names, web_scraper.py line 115) or an exception of any
other class, carried with its message text. -/
inductive Exc where
  | unexpectedModelBehavior (msg : String)
  | other (msg : String)
deriving Repr, DecidableEq

/-- The value returned by `web_scraping_agent.run_sync`: its `data`
attribute (the validator may have produced `None`) and the token-usage
counters read on web_scraper.py lines 104-105. -/
structure AgentResponse where
  data : Option Results
  requestTokens : Nat
  responseTokens : Nat
deriving Repr, DecidableEq

/-- Outcome of the `run_sync` call itself: a returned response, or an
exception raised out of the agent framework (for instance
`UnexpectedModelBehavior` after the bounded retries are exhausted). -/
inductive RunOutcome where
  | ok (resp : AgentResponse)
  | raises (e : Exc)
deriving Repr, DecidableEq

/-- The environment of one `main` invocation: what `run_sync` does, the
current local time read by `datetime.datetime.now()`, and whether the
`df.to_csv` write raises (`some msg`: it raises an exception of a
non-`UnexpectedModelBehavior` class with that message; `none`: the write
succeeds). -/
structure Env where
  run : RunOutcome
  now : LocalTime
  writeError : Option String
deriving Repr, DecidableEq

/-- Observable effects of one `main` invocation: the name of the CSV file
written, if any, and the error-level log lines emitted (info-level logging
is not modelled). -/
structure MainEffects where
  written : Option String
  errorsLogged : List String
deriving Repr, DecidableEq

/-- How `main` terminates: a normal return, or an exception escaping it
(the `except` clause on web_scraper.py line 115 catches only
`UnexpectedModelBehavior`, so any other exception propagates to process
exit). -/
inductive MainResult where
  | finished (eff : MainEffects)
  | uncaught (e : Exc) (eff : MainEffects)
deriving Repr, DecidableEq

/-- `main` (web_scraper.py lines 91-116).  Inside the `try` block: run the
agent; if `response.data is None or not response.data.dataset`, raise
`UnexpectedModelBehavior("No valid data retrieved.")`; otherwise build the
DataFrame and write the timestamped CSV.  The `except UnexpectedModelBehavior`
clause logs `"Scraping error: <msg>"` and returns; every other exception
escapes. -/
def mainRun (env : Env) : MainResult :=
  match env.run with
  | .raises (.unexpectedModelBehavior m) =>
    .finished { written := none, errorsLogged := ["Scraping error: " ++ m] }
  | .raises (.other m) =>
    .uncaught (.other m) { written := none, errorsLogged := [] }
  | .ok resp =>
    match resp.data with
    | none =>
      .finished { written := none,
                  errorsLogged := ["Scraping error: No valid data retrieved."] }
    | some results =>
      if results.dataset.isEmpty then
        .finished { written := none,
                    errorsLogged := ["Scraping error: No valid data retrieved."] }
      else
        match env.writeError with
        | some m => .uncaught (.other m) { written := none, errorsLogged := [] }
        | none =>
          .finished { written := some (csvFilename env.now), errorsLogged := [] }

/-! ## Pydantic validation of the `Product` schema (web_scraper.py 15-19) -/

/-- A JSON-ish field value offered to the schema: a string or the null
value (other value kinds are irrelevant to the claims about this schema). -/
inductive JsonValue where
  | str (s : String)
  | null
deriving Repr, DecidableEq

/-- A raw candidate record before schema validation: for each declared
field, either a provided value or `none` when the field is omitted
entirely. -/
structure RawProduct where
  brand_name : Option JsonValue
  product_name : Option JsonValue
  price : Option JsonValue
  rating_count : Option JsonValue
deriving Repr, DecidableEq

/-- Pydantic v2 validation of a field annotated `str` with
`Field(title=..., description=...)`: no default is given, so an omitted
field is an error, and `None` is not a string. -/
def validateStrField : Option JsonValue → Except String String
  | some (.str s) => .ok s
  | some .null => .error "Input should be a valid string"
  | none => .error "Field required"

/-- Pydantic v2 validation of a field annotated `str | None` with
`Field(title=..., description=...)`: no default is given, so the field is
still required, but the provided value may be the null value. -/
def validateOptStrField : Option JsonValue → Except String (Option String)
  | some (.str s) => .ok (some s)
  | some .null => .ok none
  | none => .error "Field required"

/-- Validation of a raw record against the `Product` schema declared on
web_scraper.py lines 15-19, under pydantic v2 semantics (pydantic_ai is
built on pydantic v2, where a field without a default is required even
when its annotation admits `None`). -/
def Product.validateRaw (raw : RawProduct) : Except String Product := do
  let b ← validateStrField raw.brand_name
  let n ← validateStrField raw.product_name
  let pr ← validateOptStrField raw.price
  let rc ← validateOptStrField raw.rating_count
  return { brand_name := b, product_name := n, price := pr, rating_count := rc }

/-! ## Theorems -/

/-- Claim C1: for every URL, `fetch_html_text` never raises to its caller
(in the embedding it is a total function into `FetchResult`); when the HTTP
response has a failure status (≥ 400, so `raise_for_status` raises the
`HTTPStatusError` caught on line 66) it returns exactly the string
`"Error: Unable to fetch content from <url>"`, which contains the URL, and
on any transport-level failure it returns a text message embedding the
error detail. -/
theorem C1_fetch_error_contract (getText : String → String)
    (url body detail : String) (status : Nat) (h : 400 ≤ status) :
    (fetch_html_text getText url (.response status body)).text =
      "Error: Unable to fetch content from " ++ url ∧
    (fetch_html_text getText url (.transportError detail)).text =
      "Error: " ++ detail := by
  constructor
  · have hns : ¬ (200 ≤ status ∧ status < 300) := by omega
    simp [fetch_html_text, hns]
  · rfl

/-- Witness for C1 at a concrete 404 response and a concrete transport
failure. -/
theorem C1_fetch_error_contract_witness :
    (fetch_html_text id "https://www.ikea.com/fi/en/cat/best-sellers/"
        (.response 404 "<html></html>")).text =
      "Error: Unable to fetch content from https://www.ikea.com/fi/en/cat/best-sellers/" ∧
    (fetch_html_text id "https://www.ikea.com/fi/en/cat/best-sellers/"
        (.transportError "Connection timed out")).text =
      "Error: Connection timed out" :=
  C1_fetch_error_contract id "https://www.ikea.com/fi/en/cat/best-sellers/"
    "<html></html>" "Connection timed out" 404 (by decide)

/-- Claim C2: `validate_scraping_result` accepts a candidate (returns it as
`some r`) if and only if the candidate is an instance of `Results` whose
`dataset` is non-empty; an empty dataset or a wrong-typed candidate yields
`none`, and the embedding is a total function, so nothing is raised. -/
theorem C2_validator_accepts_iff (c : Candidate) (r : Results) :
    validate_scraping_result c = some r ↔
      c = .results r ∧ r.dataset ≠ [] := by
  cases c with
  | wrongType => simp [validate_scraping_result]
  | results r0 =>
    simp only [validate_scraping_result]
    by_cases h : r0.dataset.isEmpty
    · rw [if_pos h]
      simp only [List.isEmpty_iff] at h
      constructor
      · intro hc; exact absurd hc (by simp)
      · rintro ⟨he, hne⟩
        injection he with he
        exact absurd (he ▸ h) hne
    · rw [if_neg h]
      simp only [List.isEmpty_iff] at h
      constructor
      · intro hc
        injection hc with hc
        subst hc
        exact ⟨rfl, h⟩
      · rintro ⟨he, _⟩
        injection he with he
        rw [he]

/-- Claim C3: the Persistence Writer turns N records into a header row plus
exactly N data rows, with the fixed column order
`brand_name, product_name, price, rating_count` and no row-index column,
and the two-record scenario (second record with absent price) yields the
3-line file whose second data row has an empty price cell. -/
theorem C3_csv_shape (ps : List Product) :
    (toCsvLines ps).length = ps.length + 1 ∧
    (toCsvLines ps).head? = some csvHeader ∧
    toCsvLines [⟨"Acme", "Chair", some "$49", some "120"⟩,
                ⟨"Acme", "Lamp", none, some "30"⟩] =
      ["brand_name,product_name,price,rating_count",
       "Acme,Chair,$49,120",
       "Acme,Lamp,,30"] ∧
    toCsvFile [⟨"Acme", "Chair", some "$49", some "120"⟩,
               ⟨"Acme", "Lamp", none, some "30"⟩] =
      "brand_name,product_name,price,rating_count\nAcme,Chair,$49,120\nAcme,Lamp,,30\n" := by
  refine ⟨?_, rfl, by decide, by decide⟩
  simp [toCsvLines]

/-- Helper for C4: every character in the output of the run-collapsing
substitution is a non-break character (each break run is replaced by a
space and the remaining characters are copied unchanged). -/
theorem collapseBreaks_no_break :
    ∀ l : List Char, ∀ c ∈ collapseBreaks l, isBreak c = false := by
  have H : ∀ n : Nat, ∀ l : List Char, l.length ≤ n →
      ∀ c ∈ collapseBreaks l, isBreak c = false := by
    intro n
    induction n with
    | zero =>
      intro l hl c hc
      rw [List.eq_nil_of_length_eq_zero (Nat.le_zero.mp hl)] at hc
      simp [collapseBreaks] at hc
    | succ n ih =>
      intro l hl c hc
      match l with
      | [] => simp [collapseBreaks] at hc
      | d :: ds =>
        rw [collapseBreaks] at hc
        simp only [List.length_cons, Nat.succ_le_succ_iff] at hl
        by_cases hd : isBreak d
        · rw [if_pos hd] at hc
          rcases List.mem_cons.mp hc with hc | hc
          · subst hc; decide
          · exact ih (ds.dropWhile isBreak)
              (le_trans (dropWhile_length_le isBreak ds) hl) c hc
        · rw [if_neg hd] at hc
          rcases List.mem_cons.mp hc with hc | hc
          · subst hc
            exact Bool.not_eq_true _ ▸ eq_false_of_ne_true hd
          · exact ih ds hl c hc
  intro l
  exact H l.length l (le_refl _)

/-- Claim C4: on a successful fetch, the text returned by
`fetch_html_text` (the visible text with every newline/carriage-return run
replaced by one space) contains no literal newline or carriage-return
character, whatever the HTML body and the visible-text extraction were. -/
theorem C4_success_text_has_no_breaks (getText : String → String)
    (url body : String) (status : Nat) (h : 200 ≤ status ∧ status < 300) :
    ∀ c ∈ (fetch_html_text getText url (.response status body)).text.data,
      c ≠ '\n' ∧ c ≠ '\r' := by
  intro c hc
  simp only [fetch_html_text, if_pos h] at hc
  have hb : isBreak c = false :=
    collapseBreaks_no_break (getText body).data c hc
  simp only [isBreak, Bool.or_eq_false_iff] at hb
  exact ⟨by simpa using hb.1, by simpa using hb.2⟩

/-- Witness for C4 at a concrete 200 response whose body contains newline
and carriage-return characters. -/
theorem C4_success_text_witness :
    (200 ≤ 200 ∧ 200 < 300) ∧
    ∀ c ∈ (fetch_html_text id "https://example.com"
            (.response 200 "line one\nline two\r\nline three")).text.data,
      c ≠ '\n' ∧ c ≠ '\r' :=
  ⟨by decide,
   C4_success_text_has_no_breaks id "https://example.com"
     "line one\nline two\r\nline three" 200 (by decide)⟩

/-- Claim C5: whenever the agent run returns but yields no accepted result
(absent data or an empty dataset), `main` raises
`UnexpectedModelBehavior("No valid data retrieved.")`, catches it at its
top level, logs it, and finishes without writing any output CSV file. -/
theorem C5_no_valid_data_writes_nothing (resp : AgentResponse)
    (t : LocalTime) (we : Option String)
    (h : resp.data = none ∨ ∃ r, resp.data = some r ∧ r.dataset = []) :
    mainRun { run := .ok resp, now := t, writeError := we } =
      .finished { written := none,
                  errorsLogged := ["Scraping error: No valid data retrieved."] } := by
  rcases h with h | ⟨r, hr, hd⟩
  · simp [mainRun, h]
  · simp [mainRun, hr, hd]

/-- Witness for C5 at a concrete environment whose agent run returns an
empty dataset. -/
theorem C5_no_valid_data_witness :
    ((⟨some ⟨[]⟩, 7, 9⟩ : AgentResponse).data = some ⟨[]⟩ ∧ Results.dataset ⟨[]⟩ = []) ∧
    mainRun { run := .ok ⟨some ⟨[]⟩, 7, 9⟩, now := ⟨2024, 6, 1, 10, 15, 30⟩,
              writeError := none } =
      .finished { written := none,
                  errorsLogged := ["Scraping error: No valid data retrieved."] } :=
  ⟨⟨rfl, rfl⟩,
   C5_no_valid_data_writes_nothing ⟨some ⟨[]⟩, 7, 9⟩ ⟨2024, 6, 1, 10, 15, 30⟩ none
     (Or.inr ⟨⟨[]⟩, rfl, rfl⟩)⟩

/-- Claim C6: the output filename is
`product_listings_<YYYY-MM-DD_HH-MM-SS>.csv` from the current local time,
and every successful run started at local time 2024-06-01 10:15:30 writes
the file literally named `product_listings_2024-06-01_10-15-30.csv`. -/
theorem C6_timestamped_filename (resp : AgentResponse) (r : Results)
    (hdata : resp.data = some r) (hne : r.dataset ≠ []) :
    csvFilename ⟨2024, 6, 1, 10, 15, 30⟩ =
      "product_listings_2024-06-01_10-15-30.csv" ∧
    mainRun { run := .ok resp, now := ⟨2024, 6, 1, 10, 15, 30⟩,
              writeError := none } =
      .finished { written := some "product_listings_2024-06-01_10-15-30.csv",
                  errorsLogged := [] } := by
  have hie : r.dataset.isEmpty = false := by
    cases hdl : r.dataset with
    | nil => exact absurd hdl hne
    | cons a as => simp
  refine ⟨by decide, ?_⟩
  simp only [mainRun, hdata, hie]
  decide

/-- Witness for C6 at a concrete successful run started at
2024-06-01 10:15:30. -/
theorem C6_timestamped_filename_witness :
    mainRun { run := .ok ⟨some ⟨[⟨"Acme", "Chair", some "$49", some "120"⟩]⟩, 7, 9⟩,
              now := ⟨2024, 6, 1, 10, 15, 30⟩, writeError := none } =
      .finished { written := some "product_listings_2024-06-01_10-15-30.csv",
                  errorsLogged := [] } :=
  (C6_timestamped_filename ⟨some ⟨[⟨"Acme", "Chair", some "$49", some "120"⟩]⟩, 7, 9⟩
    ⟨[⟨"Acme", "Chair", some "$49", some "120"⟩]⟩ rfl (by decide)).2

/-- Claim C7: no retry is applied to the persistence step: when the CSV
write raises an exception (necessarily not of the
`UnexpectedModelBehavior` class that the `except` clause names), `main`
does not catch it; it escapes with no file written and nothing logged by
`main`. -/
theorem C7_write_failure_escapes (resp : AgentResponse) (r : Results)
    (t : LocalTime) (m : String)
    (hdata : resp.data = some r) (hne : r.dataset ≠ []) :
    mainRun { run := .ok resp, now := t, writeError := some m } =
      .uncaught (.other m) { written := none, errorsLogged := [] } := by
  have hie : r.dataset.isEmpty = false := by
    cases hdl : r.dataset with
    | nil => exact absurd hdl hne
    | cons a as => simp
  simp [mainRun, hdata, hie]

/-- Witness for C7 at a concrete run whose CSV write raises. -/
theorem C7_write_failure_witness :
    mainRun { run := .ok ⟨some ⟨[⟨"Acme", "Chair", some "$49", some "120"⟩]⟩, 7, 9⟩,
              now := ⟨2024, 6, 1, 10, 15, 30⟩, writeError := some "Permission denied" } =
      .uncaught (.other "Permission denied") { written := none, errorsLogged := [] } :=
  C7_write_failure_escapes ⟨some ⟨[⟨"Acme", "Chair", some "$49", some "120"⟩]⟩, 7, 9⟩
    ⟨[⟨"Acme", "Chair", some "$49", some "120"⟩]⟩ ⟨2024, 6, 1, 10, 15, 30⟩
    "Permission denied" rfl (by decide)

/-- Claim C8 counterexample: a raw record that provides `brand_name` and
`product_name` but omits `price` and `rating_count` entirely is rejected
by the schema with a missing-field error — under pydantic v2 a field
declared `str | None = Field(...)` with no default is still required — so
such a candidate is not an accepted `Product`, contrary to the claim. -/
theorem C8_omitting_optional_fields_rejected :
    Product.validateRaw ⟨some (.str "Acme"), some (.str "Chair"), none, none⟩ =
      .error "Field required" := rfl

/-- Claim C8 as amended: `brand_name` and `product_name` are required text
fields, and `price` and `rating_count` admit the null value (yielding an
absent value in the record) but remain required fields: a candidate
providing them as null is accepted, while a candidate omitting either of
them entirely is rejected. -/
theorem C8_null_allowed_but_field_required (b n : String) :
    Product.validateRaw ⟨some (.str b), some (.str n), some .null, some .null⟩ =
      .ok ⟨b, n, none, none⟩ ∧
    Product.validateRaw ⟨some (.str b), some (.str n), none, some .null⟩ =
      .error "Field required" ∧
    Product.validateRaw ⟨some (.str b), some (.str n), some .null, none⟩ =
      .error "Field required" :=
  ⟨rfl, rfl, rfl⟩

/-- Claim C9 counterexample: on a concrete successful fetch the effect
trace of `fetch_html_text` records no file write at all — the function
body in web_scraper.py lines 43-71 contains no file operation — so the
extracted text is not written to any local trace file before returning. -/
theorem C9_no_trace_file_on_success :
    (fetch_html_text id "https://example.com"
        (.response 200 "<html><body>hello</body></html>")).filesWritten = [] := rfl

/-- Claim C9 as amended: `fetch_html_text` writes no local file on any
input — success, HTTP failure, or transport failure; its only observable
outcome besides logging is the returned string. -/
theorem C9_fetch_writes_no_files (getText : String → String) (url : String)
    (outcome : HttpOutcome) :
    (fetch_html_text getText url outcome).filesWritten = [] := by
  cases outcome with
  | response status body =>
    by_cases h : 200 ≤ status ∧ status < 300 <;> simp [fetch_html_text, h]
  | transportError detail => rfl

/-- Claim C10: on every accepted input (a `Results` value with a non-empty
dataset) `validate_scraping_result` returns its argument itself, so
validation modifies, reorders and drops nothing. -/
theorem C10_validator_is_identity_on_accepted (r : Results)
    (h : r.dataset ≠ []) :
    validate_scraping_result (.results r) = some r := by
  have hie : r.dataset.isEmpty = false := by
    cases hdl : r.dataset with
    | nil => exact absurd hdl h
    | cons a as => simp
  simp [validate_scraping_result, hie]

/-- Witness for C10 at a concrete one-record result set. -/
theorem C10_validator_identity_witness :
    validate_scraping_result
        (.results ⟨[⟨"Acme", "Chair", some "$49", some "120"⟩]⟩) =
      some ⟨[⟨"Acme", "Chair", some "$49", some "120"⟩]⟩ :=
  C10_validator_is_identity_on_accepted
    ⟨[⟨"Acme", "Chair", some "$49", some "120"⟩]⟩ (by decide)

end WebScraper
